import Mathlib

/-!
Verification of the sandboxed code-execution subsystem of this repository
against its natural-language specification.

The embedding follows `src/tools/python_executor.py` (safety prefilter,
Docker-image provisioning, the Docker run itself, filesystem diffing,
output truncation, and the database write path), `src/utils/settings.py`
(the sandbox configuration), and `src/database/code_execution.py` together
with `src/database/db.py` (transaction behaviour of the ledger writes).

External effects (the Docker engine, the filesystem, the database) are made
explicit as an environment value (`RunEnv`): each possible behaviour of a
collaborator is a field, and every function of the source becomes a pure
function of the code, the configuration and that environment.  Durations
are modelled in whole seconds.  Strings produced by the source are copied
byte-for-byte, including the mis-encoded emoji prefixes present in the
source file (for example `‚ùå`, the source's literal bytes).
-/

namespace LangChainMC

/-- Sandbox configuration, from `src/utils/settings.py` lines 36-40.
Each field is an environment variable with the default recorded here. -/
structure Settings where
  sandboxTimeout : Nat
  sandboxMaxOutput : Nat
  sandboxMemoryLimit : String
  sandboxCpuQuota : Int
  sandboxNetworkDisabled : Bool
deriving DecidableEq, Repr

/-- The defaults of `settings.py`: `SANDBOX_TIMEOUT = 30`,
`SANDBOX_MAX_OUTPUT = 5000`, `SANDBOX_MEMORY_LIMIT = "512m"`,
`SANDBOX_CPU_QUOTA = 50000`, `SANDBOX_NETWORK_DISABLED = true`. -/
def defaultSettings : Settings :=
  { sandboxTimeout := 30
    sandboxMaxOutput := 5000
    sandboxMemoryLimit := "512m"
    sandboxCpuQuota := 50000
    sandboxNetworkDisabled := true }

/-- Python's `pattern in code` substring test, on code points. -/
def containsPat (code pat : String) : Bool :=
  decide (pat.data <:+: code.data)

/-- The deny-list scanned by `_validate_code_safety`
(`python_executor.py` line 54). -/
def dangerousPatterns : List String :=
  ["__import__", "eval(", "exec(", "compile("]

/-- `_validate_code_safety` (`python_executor.py` lines 46-64): returns
`(is_safe, error_message)`.  The `for` loop returning on the first matching
pattern is `List.find?`; the path-traversal check follows it. -/
def validateCodeSafety (code : String) : Bool × String :=
  match dangerousPatterns.find? (fun p => containsPat code p) with
  | some p => (false, "‚ùå Dangerous operation detected: " ++ p)
  | none =>
    if containsPat code "../" || containsPat code "/.." then
      (false, "‚ùå Path traversal detected")
    else
      (true, "")

/-- Character-level slicing `output[:max_length]` of Python. -/
def strTake (s : String) (n : Nat) : String :=
  String.mk (s.data.take n)

/-- The truncation marker `f"\n\n... (truncated, {len(output)} total chars)"`
appended by `_sanitize_output`, as a function of the original length. -/
def truncationMarker (n : Nat) : String :=
  "\n\n... (truncated, " ++ toString n ++ " total chars)"

/-- `_sanitize_output` (`python_executor.py` lines 39-43): truncate `output`
to `maxLength` characters, appending the marker, when it is too long.
The source's default argument for `max_length` is `SANDBOX_MAX_OUTPUT`;
callers in this model pass the configured value explicitly. -/
def sanitizeOutput (output : String) (maxLength : Nat) : String :=
  if output.length > maxLength then
    strTake output maxLength ++ truncationMarker output.length
  else
    output

/-- Python's `str.strip()` (no argument): drop leading and trailing
whitespace characters. -/
def pyWhitespace (c : Char) : Bool :=
  c = ' ' || c = '\t' || c = '\n' || c = '\r' || c = '\x0b' || c = '\x0c'

/-- `result["stdout"].strip()` and friends (`python_executor.py`
lines 267-268). -/
def pyStrip (s : String) : String :=
  String.mk (((s.data.dropWhile pyWhitespace).reverse.dropWhile pyWhitespace).reverse)

/-- State of the Docker engine and build inputs as seen by
`_ensure_docker_image`: whether `docker.from_env()` (and the image query)
works at all, whether `python-sandbox:latest` is present, whether
`Dockerfile.sandbox` exists, and how a build attempt would end. -/
structure ProvisionEnv where
  engineReachable : Bool
  imageExists : Bool
  dockerfileExists : Bool
  buildSucceeds : Bool
  engineError : String
  buildError : String
deriving DecidableEq, Repr

/-- `_ensure_docker_image` (`python_executor.py` lines 67-95).  Returns the
`(ok, message)` pair of the source, the engine state afterwards (a build
that succeeds makes the image exist), and the number of build operations
performed.  `DockerException` raised while connecting or building is caught
by the source's `except` and surfaces as `(False, "‚ùå Docker error: ...")`. -/
def ensureDockerImage (env : ProvisionEnv) : (Bool × String) × ProvisionEnv × Nat :=
  if env.engineReachable = false then
    ((false, "‚ùå Docker error: " ++ env.engineError), env, 0)
  else if env.imageExists = true then
    ((true, "Image exists"), env, 0)
  else if env.dockerfileExists = false then
    ((false, "‚ùå Dockerfile.sandbox not found in project root"), env, 0)
  else if env.buildSucceeds = true then
    ((true, "Image built successfully"), { env with imageExists := true }, 1)
  else
    ((false, "‚ùå Docker error: " ++ env.buildError), env, 1)

/-- The one possible behaviour of the blocking `client.containers.run` call
in `_execute_in_docker` (`python_executor.py` lines 136-158):

* `success logs` — the container exited with status 0; docker-py returns the
  captured container logs (both streams, since the config sets
  `stdout=True, stderr=True`) as one byte string;
* `containerError so se strRepr exitStatus` — the container exited with a
  non-zero status, so docker-py raises `ContainerError` carrying the two
  streams (empty string standing for both `None` and empty bytes, which
  Python's truthiness test conflates) and its `str(e)` representation;
* `dockerException msg` — the engine itself failed (unreachable daemon,
  image missing at launch, ...). -/
inductive DockerRunOutcome where
  | success (logs : String)
  | containerError (stdoutLogs stderrLogs strRepr : String) (exitStatus : Nat)
  | dockerException (msg : String)
deriving DecidableEq, Repr

/-- docker-py raises `ContainerError` exactly when the container's exit
status is non-zero; a well-formed outcome respects that. -/
def DockerRunOutcome.wf : DockerRunOutcome → Prop
  | DockerRunOutcome.containerError _ _ _ exitStatus => exitStatus ≠ 0
  | _ => True

/-- The `dict` returned by `_execute_in_docker`. -/
structure ExecResult where
  stdout : String
  stderr : String
  returncode : Int
deriving DecidableEq, Repr

/-- `_execute_in_docker` (`python_executor.py` lines 98-158), as a function
of the engine's behaviour.  On success the combined logs land in `stdout`
and `stderr` is the empty string; on `ContainerError` the streams are
decoded (`str(e)` replacing a falsy stderr) and the exit status is the
container's; on `DockerException` the synthetic `-1` outcome is built. -/
def executeInDocker : DockerRunOutcome → ExecResult
  | DockerRunOutcome.success logs =>
      { stdout := logs, stderr := "", returncode := 0 }
  | DockerRunOutcome.containerError so se strRepr exitStatus =>
      { stdout := so
        stderr := if se = "" then strRepr else se
        returncode := (exitStatus : Int) }
  | DockerRunOutcome.dockerException msg =>
      { stdout := ""
        stderr := "Docker execution error: " ++ msg
        returncode := -1 }

/-- The container configuration built by `_execute_in_docker`
(`python_executor.py` lines 120-134).  Note that no field of it carries a
timeout or deadline: `containers.run` with `detach := false` blocks until
the container exits on its own. -/
structure ContainerConfig where
  image : String
  command : List String
  workingDir : String
  memLimit : String
  cpuQuota : Int
  cpuPeriod : Int
  networkDisabled : Bool
  remove : Bool
  detach : Bool
  stdoutFlag : Bool
  stderrFlag : Bool
deriving DecidableEq, Repr

/-- The `container_config` dict of lines 121-134, from the settings. -/
def containerConfig (cfg : Settings) : ContainerConfig :=
  { image := "python-sandbox:latest"
    command := ["python", "/tmp/script.py"]
    workingDir := "/workspace"
    memLimit := cfg.sandboxMemoryLimit
    cpuQuota := cfg.sandboxCpuQuota
    cpuPeriod := 100000
    networkDisabled := cfg.sandboxNetworkDisabled
    remove := true
    detach := false
    stdoutFlag := true
    stderrFlag := true }

/-- `list(files_after - files_before)` of `python_executor.py` line 273:
the entries of the after-snapshot that are absent from the before-snapshot
(`os.listdir` yields each directory entry once). -/
def diffFiles (before after : List String) : List String :=
  after.filter (fun f => !(decide (f ∈ before)))

/-- One run of the guest code as the engine would perform it: how the
blocking call ends, and how long the guest takes (in seconds) before it
exits — the wall-clock duration of the blocking `containers.run` call. -/
structure GuestRun where
  outcome : DockerRunOutcome
  duration : Nat
deriving Repr

/-- The whole external world of one `run_python_code` call: engine state,
the guest's behaviour, the workspace listing before and after the run
(`os.listdir(WORKSPACE_DIR)`), whether the `ExecutionRepository` write
raises, which created files are still on disk when their metadata is
saved, which metadata saves raise, and the id the database assigns. -/
structure RunEnv where
  provision : ProvisionEnv
  guest : GuestRun
  filesBefore : List String
  filesAfter : List String
  execSaveFails : Bool
  fileOnDisk : String → Bool
  fileSaveFails : String → Bool
  nextExecutionId : Nat

/-- The `CodeExecution` row written by `ExecutionRepository.save_execution`
(`src/database/code_execution.py` lines 13-39), with the fields the
verified claims are about. -/
structure ExecRecord where
  sessionId : String
  code : String
  stdout : String
  stderr : String
  returncode : Int
  createdFiles : List String
  executionTime : Nat
deriving DecidableEq, Repr

/-- The `WorkspaceFileMetadata` row written by
`WorkspaceRepository.save_file_metadata`.  Only the fields the verified
claims mention are modelled; `file_path`, `file_size` and `file_type` are
direct projections of the filesystem state and are elided. -/
structure FileRecord where
  sessionId : String
  filename : String
  executionId : Option Nat
deriving DecidableEq, Repr

/-- One row written to the ledger. -/
inductive LedgerWrite where
  | exec (r : ExecRecord)
  | file (r : FileRecord)
deriving DecidableEq, Repr

/-- One database transaction: the set of rows that commit together.  Every
`with get_db() as db:` block of the source that commits is one element. -/
abbrev LedgerTxn := List LedgerWrite

/-- `_save_file_metadata` (`python_executor.py` lines 161-182): opens its
own database session (`with get_db() as db:` at line 171), so a saved row
is its own transaction; a file no longer on disk is skipped (line 165), and
any exception is caught inside the function (line 181), leaving no
transaction. -/
def saveFileMetadata (env : RunEnv) (sessionId filename : String)
    (executionId : Option Nat) : List LedgerTxn :=
  if env.fileOnDisk filename = false then []
  else if env.fileSaveFails filename = true then []
  else [[LedgerWrite.file
    { sessionId := sessionId, filename := filename, executionId := executionId }]]

/-- The persistence block of `run_python_code` (`python_executor.py`
lines 279-298): `save_execution` commits the execution row (the repository
calls `db.commit()` itself, `code_execution.py` line 37), then each created
file's metadata is saved by `_save_file_metadata` in its own session.  An
exception from `save_execution` propagates to the `except` at line 297, so
nothing is written and `execution_id` stays `None`. -/
def saveRunToLedger (env : RunEnv) (rec : ExecRecord) : List LedgerTxn × Option Nat :=
  if env.execSaveFails = true then ([], none)
  else
    ([[LedgerWrite.exec rec]] ++
      (rec.createdFiles.map (fun f =>
        saveFileMetadata env rec.sessionId f (some env.nextExecutionId))).flatten,
     some env.nextExecutionId)

/-- The response of `run_python_code`, structured: the banner choice, the
conditional output sections (`if stdout:` at line 308, `if stderr:` at
line 311), the created-file list, the elapsed time, and the `ID:` line
(`None` when persistence failed). -/
structure Summary where
  success : Bool
  exitCode : Int
  stdoutSection : Option String
  stderrSection : Option String
  createdFiles : List String
  executionTime : Nat
  executionId : Option Nat
deriving DecidableEq, Repr

/-- What a `run_python_code` call returns: a prefilter rejection
(line 246), a provisioning failure (line 251), or a completed run's
summary. -/
inductive RunOutput where
  | rejected (msg : String)
  | provisionFailed (msg : String)
  | completed (s : Summary)
deriving DecidableEq, Repr

/-- Observable effects of one call: its return value, whether a container
was launched, the ledger transactions committed, and the image builds
performed. -/
structure RunResult where
  output : RunOutput
  launched : Bool
  transactions : List LedgerTxn
  buildOps : Nat

/-- Lines 253-321 of `run_python_code`, after both guards have passed:
run the container, strip the streams, diff the workspace snapshots, take
the elapsed time of the blocking call, persist best-effort, and build the
summary.  The persisted streams are the stripped, *untruncated* strings;
`_sanitize_output` is applied only to the summary's sections. -/
def runExec (cfg : Settings) (env : RunEnv) (code sessionId : String) :
    Summary × List LedgerTxn :=
  let result := executeInDocker env.guest.outcome
  let stdout := pyStrip result.stdout
  let stderr := pyStrip result.stderr
  let returncode := result.returncode
  let newFiles := diffFiles env.filesBefore env.filesAfter
  let executionTime := env.guest.duration
  let saved := saveRunToLedger env
    { sessionId := sessionId, code := code, stdout := stdout, stderr := stderr,
      returncode := returncode, createdFiles := newFiles,
      executionTime := executionTime }
  ({ success := returncode == 0
     exitCode := returncode
     stdoutSection :=
       if stdout = "" then none
       else some (sanitizeOutput stdout cfg.sandboxMaxOutput)
     stderrSection :=
       if stderr = "" then none
       else some (sanitizeOutput stderr cfg.sandboxMaxOutput)
     createdFiles := newFiles
     executionTime := executionTime
     executionId := saved.2 },
   saved.1)

/-- `run_python_code` (`python_executor.py` lines 185-332): validate, ensure
the image, then execute and persist.  A rejection or a provisioning failure
returns before any container is launched and before any ledger write. -/
def run_python_code (cfg : Settings) (env : RunEnv) (code sessionId : String) :
    RunResult :=
  let v := validateCodeSafety code
  if v.1 = false then
    { output := RunOutput.rejected v.2
      launched := false
      transactions := []
      buildOps := 0 }
  else
    let prov := ensureDockerImage env.provision
    if prov.1.1 = false then
      { output := RunOutput.provisionFailed
          (prov.1.2 ++ "\n\nPlease ensure Docker is installed and Dockerfile.sandbox exists.")
        launched := false
        transactions := []
        buildOps := prov.2.2 }
    else
      let er := runExec cfg env code sessionId
      { output := RunOutput.completed er.1
        launched := true
        transactions := er.2
        buildOps := prov.2.2 }

/-! Concrete environments used to instantiate the theorems below. -/

/-- A healthy engine with the image already built. -/
def goodProvision : ProvisionEnv :=
  { engineReachable := true
    imageExists := true
    dockerfileExists := true
    buildSucceeds := true
    engineError := ""
    buildError := "" }

/-- Engine reachable, image absent, and `Dockerfile.sandbox` missing. -/
def noDockerfileProvision : ProvisionEnv :=
  { engineReachable := true
    imageExists := false
    dockerfileExists := false
    buildSucceeds := true
    engineError := ""
    buildError := "" }

/-- A benign world: healthy engine, guest prints `hi`, empty workspace,
database reachable. -/
def benignEnv : RunEnv :=
  { provision := goodProvision
    guest := { outcome := DockerRunOutcome.success "hi\n", duration := 1 }
    filesBefore := []
    filesAfter := []
    execSaveFails := false
    fileOnDisk := fun _ => true
    fileSaveFails := fun _ => false
    nextExecutionId := 1 }

/-- Guest code that sleeps past the configured 30-second timeout.  It
contains none of the deny-list patterns, so the prefilter admits it. -/
def sleepCode : String := "import time\ntime.sleep(60)\n"

/-- World for the timeout claim: the guest sleeps 60 seconds and then
exits with status 0; the blocking run call therefore lasts 60 seconds. -/
def c1Env : RunEnv :=
  { benignEnv with guest := { outcome := DockerRunOutcome.success "", duration := 60 } }

/-- A guest output of 5001 characters, one above the configured
`SANDBOX_MAX_OUTPUT` default of 5000. -/
def bigOut : String := String.mk (List.replicate 5001 'a')

/-- World in which the guest prints `bigOut` and exits 0. -/
def c3Env : RunEnv :=
  { benignEnv with guest := { outcome := DockerRunOutcome.success bigOut, duration := 1 } }

/-- The execution row that world persists: its `stdout` is the raw,
untruncated 5001-character string. -/
def c3Rec : ExecRecord :=
  { sessionId := "s", code := "print(1)", stdout := bigOut, stderr := "",
    returncode := 0, createdFiles := [], executionTime := 1 }

/-- World for the transaction-grouping claim: the run creates two files and
the metadata save for `a.txt` raises (and is swallowed). -/
def c4Env : RunEnv :=
  { provision := goodProvision
    guest := { outcome := DockerRunOutcome.success "", duration := 1 }
    filesBefore := []
    filesAfter := ["a.txt", "b.txt"]
    execSaveFails := false
    fileOnDisk := fun _ => true
    fileSaveFails := fun f => f == "a.txt"
    nextExecutionId := 7 }

/-- The execution row committed in that world. -/
def c4Rec : ExecRecord :=
  { sessionId := "s4", code := "print(1)", stdout := "", stderr := "",
    returncode := 0, createdFiles := ["a.txt", "b.txt"], executionTime := 1 }

/-- The only file-metadata row committed in that world. -/
def c4FileRec : FileRecord :=
  { sessionId := "s4", filename := "b.txt", executionId := some 7 }

/-- A benign world whose database write raises. -/
def c6Env : RunEnv :=
  { benignEnv with execSaveFails := true }

/-! Helper lemmas, shared between claim theorems. -/

theorem strTake_length (s : String) (n : Nat) :
    (strTake s n).length = min n s.length := by
  show (s.data.take n).length = min n s.length
  rw [List.length_take]
  rfl

theorem sanitizeOutput_length_le (output : String) (maxLength : Nat) :
    (sanitizeOutput output maxLength).length ≤
      maxLength + (truncationMarker output.length).length := by
  unfold sanitizeOutput
  by_cases h : output.length > maxLength
  · rw [if_pos h, String.length_append, strTake_length]
    have := Nat.min_le_left maxLength output.length
    omega
  · rw [if_neg h]
    omega

theorem pyStrip_replicate (n : Nat) :
    pyStrip (String.mk (List.replicate n 'a')) = String.mk (List.replicate n 'a') := by
  have hdrop : List.dropWhile pyWhitespace (List.replicate n 'a') = List.replicate n 'a' := by
    cases n with
    | zero => rfl
    | succ m =>
      rw [List.replicate_succ, List.dropWhile_cons]
      have hw : pyWhitespace 'a' = false := by decide
      rw [hw]
      simp [List.replicate_succ]
  unfold pyStrip
  rw [hdrop, List.reverse_replicate, hdrop, List.reverse_replicate]

/-- The only way `run_python_code` returns a completed summary is through
the final branch, and the summary is then the one `runExec` builds. -/
theorem run_completed_eq (cfg : Settings) (env : RunEnv) (code sessionId : String)
    (s : Summary)
    (h : (run_python_code cfg env code sessionId).output = RunOutput.completed s) :
    s = (runExec cfg env code sessionId).1 := by
  unfold run_python_code at h
  by_cases h1 : (validateCodeSafety code).1 = false
  · simp [h1] at h
  · simp only [h1, if_false, if_neg] at h
    by_cases h2 : (ensureDockerImage env.provision).1.1 = false
    · simp [h1, h2] at h
    · simp [h1, h2] at h
      exact h.symm

/-! Claim theorems. -/

/-- C7: for every text and max length, the Output Governor returns the text
unchanged when it fits; otherwise it returns the first `maxLength`
characters followed by a marker stating the true original length; hence the
result's length is at most `maxLength` plus the marker's length. -/
theorem sanitize_output_contract (output : String) (maxLength : Nat) :
    (output.length ≤ maxLength → sanitizeOutput output maxLength = output) ∧
    (maxLength < output.length →
      sanitizeOutput output maxLength =
        strTake output maxLength ++ truncationMarker output.length) ∧
    (sanitizeOutput output maxLength).length ≤
      maxLength + (truncationMarker output.length).length := by
  refine ⟨?_, ?_, sanitizeOutput_length_le output maxLength⟩
  · intro h
    unfold sanitizeOutput
    rw [if_neg (by omega)]
  · intro h
    unfold sanitizeOutput
    rw [if_pos (by omega)]

/-- Witness for C7 at concrete inputs. -/
theorem sanitize_output_contract_w :
    sanitizeOutput "ab" 5 = "ab" ∧
    sanitizeOutput "abcd" 2 = strTake "abcd" 2 ++ truncationMarker 4 := by
  refine ⟨(sanitize_output_contract "ab" 5).1 (by decide), ?_⟩
  exact (sanitize_output_contract "abcd" 2).2.1 (by decide)

/-- C5: an engine-level failure does not raise; it yields the synthetic
outcome with exit code -1, empty stdout and the engine error text in
stderr, and -1 is never the exit code of code that actually ran (every
container exit status is a natural number). -/
theorem engine_failure_synthetic_outcome :
    (∀ msg, executeInDocker (DockerRunOutcome.dockerException msg) =
      { stdout := "", stderr := "Docker execution error: " ++ msg, returncode := -1 }) ∧
    (∀ o : DockerRunOutcome, (∀ m, o ≠ DockerRunOutcome.dockerException m) →
      (executeInDocker o).returncode ≠ -1) := by
  refine ⟨fun msg => rfl, ?_⟩
  intro o hno
  cases o with
  | success logs =>
    intro h
    have : (0 : Int) = -1 := h
    omega
  | containerError so se srepr es =>
    intro h
    have : (es : Int) = -1 := h
    omega
  | dockerException msg => exact absurd rfl (hno msg)

/-- Witness for C5 at concrete inputs. -/
theorem engine_failure_synthetic_outcome_w :
    executeInDocker (DockerRunOutcome.dockerException "boom") =
      { stdout := "", stderr := "Docker execution error: boom", returncode := -1 } ∧
    (executeInDocker (DockerRunOutcome.success "hi")).returncode ≠ -1 := by
  constructor
  · exact engine_failure_synthetic_outcome.1 "boom"
  · exact engine_failure_synthetic_outcome.2 (DockerRunOutcome.success "hi")
      (fun m h => by cases h)

/-- C10: when the container exits with status 0, the Runner's outcome has
empty stderr, and the whole captured container log (both guest streams,
since the run is configured with `stdout=True, stderr=True`) is delivered
in the stdout field; only non-zero guest exits or engine failures can
produce a non-empty stderr. -/
theorem exit_zero_empty_stderr (o : DockerRunOutcome) (hwf : o.wf)
    (h : (executeInDocker o).returncode = 0) :
    (executeInDocker o).stderr = "" ∧
    ∃ logs, o = DockerRunOutcome.success logs ∧ (executeInDocker o).stdout = logs := by
  cases o with
  | success logs => exact ⟨rfl, logs, rfl, rfl⟩
  | containerError so se srepr es =>
    exfalso
    have h0 : (es : Int) = 0 := h
    have hes : es = 0 := by exact_mod_cast h0
    exact hwf hes
  | dockerException msg =>
    exfalso
    have h0 : (-1 : Int) = 0 := h
    omega

/-- Witness for C10 at a concrete input. -/
theorem exit_zero_empty_stderr_w :
    (executeInDocker (DockerRunOutcome.success "out")).stderr = "" ∧
    ∃ logs, DockerRunOutcome.success "out" = DockerRunOutcome.success logs ∧
      (executeInDocker (DockerRunOutcome.success "out")).stdout = logs :=
  exit_zero_empty_stderr (DockerRunOutcome.success "out") trivial rfl

/-- C8: for every pair of snapshots, the diff is exactly the set
difference after minus before (membership is exact and each element occurs
once when the after-snapshot lists each entry once), and the created-file
list of every completed run is the diff of that run's snapshots, hence a
subset of the post-run workspace listing. -/
theorem diff_created_files_exact (before after : List String) (h : after.Nodup) :
    (∀ f, f ∈ diffFiles before after ↔ f ∈ after ∧ f ∉ before) ∧
    (diffFiles before after).Nodup ∧
    (∀ (cfg : Settings) (env : RunEnv) (code sessionId : String) (s : Summary),
      (run_python_code cfg env code sessionId).output = RunOutput.completed s →
      s.createdFiles = diffFiles env.filesBefore env.filesAfter ∧
      ∀ f ∈ s.createdFiles, f ∈ env.filesAfter) := by
  refine ⟨?_, ?_, ?_⟩
  · intro f
    simp [diffFiles, List.mem_filter]
  · exact h.filter _
  · intro cfg env code sessionId s hout
    have hs := run_completed_eq cfg env code sessionId s hout
    subst hs
    constructor
    · rfl
    · intro f hf
      have : f ∈ diffFiles env.filesBefore env.filesAfter := hf
      simp [diffFiles, List.mem_filter] at this
      exact this.1

/-- Witness for C8 at concrete snapshots. -/
theorem diff_created_files_exact_w :
    "plot.png" ∈ diffFiles ["a.txt"] ["a.txt", "plot.png"] ∧
    (diffFiles ["a.txt"] ["a.txt", "plot.png"]).Nodup := by
  have hmain := diff_created_files_exact ["a.txt"] ["a.txt", "plot.png"] (by decide)
  exact ⟨(hmain.1 "plot.png").mpr ⟨by decide, by decide⟩, hmain.2.1⟩

/-- C2: any code containing a deny-list pattern (a dynamic-evaluation
construct or a path-traversal sequence) is rejected by `execute` before
any container is launched: no build, no launch, no ledger transaction, and
the returned message identifies the trigger. -/
theorem prefilter_rejects_before_launch (cfg : Settings) (env : RunEnv)
    (code sessionId : String)
    (h : (∃ p ∈ dangerousPatterns, containsPat code p = true) ∨
      containsPat code "../" = true ∨ containsPat code "/.." = true) :
    (validateCodeSafety code).1 = false ∧
    run_python_code cfg env code sessionId =
      { output := RunOutput.rejected (validateCodeSafety code).2
        launched := false
        transactions := []
        buildOps := 0 } ∧
    ((∃ p ∈ dangerousPatterns, containsPat code p = true ∧
        (validateCodeSafety code).2 = "‚ùå Dangerous operation detected: " ++ p) ∨
      (validateCodeSafety code).2 = "‚ùå Path traversal detected") := by
  have hfst : (validateCodeSafety code).1 = false ∧
      ((∃ p ∈ dangerousPatterns, containsPat code p = true ∧
        (validateCodeSafety code).2 = "‚ùå Dangerous operation detected: " ++ p) ∨
      (validateCodeSafety code).2 = "‚ùå Path traversal detected") := by
    cases hf : dangerousPatterns.find? (fun p => containsPat code p) with
    | some p =>
      have hp : containsPat code p = true := List.find?_some hf
      have hmem : p ∈ dangerousPatterns := List.mem_of_find?_eq_some hf
      refine ⟨by simp [validateCodeSafety, hf], Or.inl ⟨p, hmem, hp, ?_⟩⟩
      simp [validateCodeSafety, hf]
    | none =>
      have htrav : containsPat code "../" = true ∨ containsPat code "/.." = true := by
        rcases h with ⟨p, hmem, hp⟩ | h2 | h3
        · exact absurd hp (by simpa using List.find?_eq_none.mp hf p hmem)
        · exact Or.inl h2
        · exact Or.inr h3
      have hcond : (containsPat code "../" || containsPat code "/..") = true := by
        rcases htrav with h2 | h2 <;> simp [h2]
      refine ⟨by simp [validateCodeSafety, hf, hcond], Or.inr ?_⟩
      simp [validateCodeSafety, hf, hcond]
  refine ⟨hfst.1, ?_, hfst.2⟩
  simp [run_python_code, hfst.1]

/-- Witness for C2: code containing `eval(` is rejected before launch. -/
theorem prefilter_rejects_before_launch_w :
    (validateCodeSafety "x = eval(input())").1 = false ∧
    run_python_code defaultSettings benignEnv "x = eval(input())" "d" =
      { output := RunOutput.rejected (validateCodeSafety "x = eval(input())").2
        launched := false
        transactions := []
        buildOps := 0 } := by
  have hmain := prefilter_rejects_before_launch defaultSettings benignEnv
    "x = eval(input())" "d" (Or.inl ⟨"eval(", by decide, by decide⟩)
  exact ⟨hmain.1, hmain.2.1⟩

/-- C9: provisioning is idempotent.  With the image already present it
succeeds with zero build operations; after any successful call, a second
call reports the image present and builds nothing; with the image absent
and the build definition missing it returns failure (no exception) and
builds nothing. -/
theorem provisioning_idempotent (env : ProvisionEnv) :
    (env.engineReachable = true → env.imageExists = true →
      ensureDockerImage env = ((true, "Image exists"), env, 0)) ∧
    ((ensureDockerImage env).1.1 = true →
      ensureDockerImage (ensureDockerImage env).2.1 =
        ((true, "Image exists"), (ensureDockerImage env).2.1, 0)) ∧
    (env.engineReachable = true → env.imageExists = false →
      env.dockerfileExists = false →
      ensureDockerImage env =
        ((false, "‚ùå Dockerfile.sandbox not found in project root"), env, 0)) := by
  obtain ⟨er, ie, de, bs, ee, be⟩ := env
  refine ⟨?_, ?_, ?_⟩ <;>
    cases er <;> cases ie <;> cases de <;> cases bs <;>
      simp [ensureDockerImage]

/-- Witness for C9 at concrete engine states. -/
theorem provisioning_idempotent_w :
    ensureDockerImage goodProvision = ((true, "Image exists"), goodProvision, 0) ∧
    ensureDockerImage noDockerfileProvision =
      ((false, "‚ùå Dockerfile.sandbox not found in project root"),
        noDockerfileProvision, 0) :=
  ⟨(provisioning_idempotent goodProvision).1 rfl rfl,
    (provisioning_idempotent noDockerfileProvision).2.2 rfl rfl rfl⟩

/-- C6: when the ledger write raises, `execute` still returns a completed
summary carrying the bounded stdout/stderr sections, the exit code, the
created files and the elapsed time, with the execution id absent; no
transaction is committed and the failure does not escape. -/
theorem ledger_failure_still_returns_summary (cfg : Settings) (env : RunEnv)
    (code sessionId : String)
    (hsafe : (validateCodeSafety code).1 = true)
    (hprov : (ensureDockerImage env.provision).1.1 = true)
    (hfail : env.execSaveFails = true) :
    ∃ s : Summary,
      (run_python_code cfg env code sessionId).output = RunOutput.completed s ∧
      s.executionId = none ∧
      (run_python_code cfg env code sessionId).transactions = [] ∧
      s.exitCode = (executeInDocker env.guest.outcome).returncode ∧
      s.stdoutSection = (if pyStrip (executeInDocker env.guest.outcome).stdout = ""
        then none
        else some (sanitizeOutput (pyStrip (executeInDocker env.guest.outcome).stdout)
          cfg.sandboxMaxOutput)) ∧
      s.stderrSection = (if pyStrip (executeInDocker env.guest.outcome).stderr = ""
        then none
        else some (sanitizeOutput (pyStrip (executeInDocker env.guest.outcome).stderr)
          cfg.sandboxMaxOutput)) ∧
      s.createdFiles = diffFiles env.filesBefore env.filesAfter ∧
      s.executionTime = env.guest.duration := by
  refine ⟨(runExec cfg env code sessionId).1, ?_, ?_, ?_, ?_, ?_, ?_, ?_, ?_⟩ <;>
    simp [run_python_code, runExec, saveRunToLedger, hsafe, hprov, hfail]

/-- Witness for C6: database down, guest prints `hi`, summary intact. -/
theorem ledger_failure_still_returns_summary_w :
    ∃ s : Summary,
      (run_python_code defaultSettings c6Env "print(1)" "d").output =
        RunOutput.completed s ∧
      s.executionId = none ∧
      (run_python_code defaultSettings c6Env "print(1)" "d").transactions = [] := by
  obtain ⟨s, h1, h2, h3, _⟩ := ledger_failure_still_returns_summary defaultSettings
    c6Env "print(1)" "d" (by decide) (by decide) rfl
  exact ⟨s, h1, h2, h3⟩

/-- C1: the code enforces no timeout at all.  The container configuration
carries no deadline, the whole call is invariant under the configured
`SANDBOX_TIMEOUT`, and a guest that sleeps 60 seconds under the default
30-second setting runs to completion: the call's wall-clock time is the
full 60 seconds and the exit code is the guest's own 0, not any reserved
sentinel. -/
theorem timeout_never_enforced :
    (∀ (cfg : Settings) (t : Nat),
      containerConfig { cfg with sandboxTimeout := t } = containerConfig cfg) ∧
    (∀ (cfg : Settings) (t : Nat) (env : RunEnv) (code sessionId : String),
      run_python_code { cfg with sandboxTimeout := t } env code sessionId =
        run_python_code cfg env code sessionId) ∧
    (∃ s, (run_python_code defaultSettings c1Env sleepCode "default").output =
        RunOutput.completed s ∧
      s.executionTime = 60 ∧ s.exitCode = 0 ∧ defaultSettings.sandboxTimeout = 30) :=
  ⟨fun _ _ => rfl, fun _ _ _ _ _ => rfl, ⟨_, rfl, rfl, rfl, rfl⟩⟩

/-- C3 counterexample: a successful run whose guest prints 5001 characters
persists an execution row whose `stdout` exceeds the configured 5000-char
output bound — the ledger receives the raw, untruncated stream. -/
theorem ledger_output_exceeds_bound_cex :
    (run_python_code defaultSettings c3Env "print(1)" "s").transactions =
      [[LedgerWrite.exec c3Rec]] ∧
    defaultSettings.sandboxMaxOutput < c3Rec.stdout.length := by
  have hstrip : pyStrip bigOut = bigOut := pyStrip_replicate 5001
  have hlen : bigOut.length = 5001 := by
    show (List.replicate 5001 'a').length = 5001
    rw [List.length_replicate]
  constructor
  · have hv : (validateCodeSafety "print(1)").1 = true := by decide
    have hp : (ensureDockerImage c3Env.provision).1.1 = true := by decide
    have hstrip0 : pyStrip "" = "" := by decide
    simp only [run_python_code, runExec, saveRunToLedger, saveFileMetadata,
      executeInDocker, hv, hp, hstrip, hstrip0, c3Env, c3Rec, benignEnv,
      goodProvision, ensureDockerImage, diffFiles]
    simp
  · show defaultSettings.sandboxMaxOutput < c3Rec.stdout.length
    have : c3Rec.stdout = bigOut := rfl
    rw [this, hlen]
    decide

/-- C3 amended: the output bound holds for the stdout/stderr sections of
the returned summary (where `_sanitize_output` is applied), each bounded by
the configured maximum plus the truncation marker's length; the persisted
streams, by contrast, are unbounded (see the counterexample). -/
theorem summary_output_bounded (cfg : Settings) (env : RunEnv)
    (code sessionId : String) (s : Summary)
    (h : (run_python_code cfg env code sessionId).output = RunOutput.completed s) :
    (∀ t, s.stdoutSection = some t →
      t.length ≤ cfg.sandboxMaxOutput +
        (truncationMarker
          (pyStrip (executeInDocker env.guest.outcome).stdout).length).length) ∧
    (∀ t, s.stderrSection = some t →
      t.length ≤ cfg.sandboxMaxOutput +
        (truncationMarker
          (pyStrip (executeInDocker env.guest.outcome).stderr).length).length) := by
  have hs := run_completed_eq cfg env code sessionId s h
  subst hs
  constructor <;> intro t ht <;> simp only [runExec] at ht
  · by_cases h0 : pyStrip (executeInDocker env.guest.outcome).stdout = ""
    · simp [h0] at ht
    · simp [h0] at ht
      rw [← ht]
      exact sanitizeOutput_length_le _ _
  · by_cases h0 : pyStrip (executeInDocker env.guest.outcome).stderr = ""
    · simp [h0] at ht
    · simp [h0] at ht
      rw [← ht]
      exact sanitizeOutput_length_le _ _

/-- Witness for the amended C3 at a concrete completed run. -/
theorem summary_output_bounded_w :
    "hi".length ≤ defaultSettings.sandboxMaxOutput +
      (truncationMarker "hi".length).length := by
  have hmain := summary_output_bounded defaultSettings benignEnv "print(1)" "d"
    (runExec defaultSettings benignEnv "print(1)" "d").1 rfl
  exact hmain.1 "hi" (by decide)

/-- C4 counterexample: a run that creates two files commits its execution
row and its file-metadata rows in separate transactions, and when the
`a.txt` metadata save raises (swallowed by `_save_file_metadata`), the
ledger ends up holding the execution row with only one of its two derived
file rows — a partially-written state the claim says cannot exist. -/
theorem ledger_write_not_single_transaction_cex :
    (run_python_code defaultSettings c4Env "print(1)" "s4").transactions =
      [[LedgerWrite.exec c4Rec], [LedgerWrite.file c4FileRec]] ∧
    c4Rec.createdFiles = ["a.txt", "b.txt"] ∧
    ¬ ∃ txn ∈ (run_python_code defaultSettings c4Env "print(1)" "s4").transactions,
        LedgerWrite.exec c4Rec ∈ txn ∧ LedgerWrite.file c4FileRec ∈ txn := by
  decide

/-- C4 amended: the ledger write path of one run is per-row, not per-run:
when the execution-row write succeeds it commits first in its own
transaction, and every other transaction of the run is a singleton holding
the metadata row of one created file (files missing on disk or whose save
raises are silently skipped); the assigned execution id links the rows. -/
theorem ledger_writes_per_record_transactions (env : RunEnv) (rec : ExecRecord)
    (h : env.execSaveFails = false) :
    (saveRunToLedger env rec).1.head? = some [LedgerWrite.exec rec] ∧
    (∀ txn ∈ (saveRunToLedger env rec).1.tail,
      ∃ f ∈ rec.createdFiles,
        txn = [LedgerWrite.file
          { sessionId := rec.sessionId, filename := f,
            executionId := some env.nextExecutionId }]) ∧
    (saveRunToLedger env rec).2 = some env.nextExecutionId := by
  refine ⟨?_, ?_, ?_⟩
  · simp [saveRunToLedger, h]
  · intro txn htxn
    simp only [saveRunToLedger, h, Bool.false_eq_true, if_false,
      List.singleton_append, List.tail_cons] at htxn
    rw [List.mem_flatten] at htxn
    obtain ⟨l, hl, htl⟩ := htxn
    rw [List.mem_map] at hl
    obtain ⟨f, hf, rfl⟩ := hl
    refine ⟨f, hf, ?_⟩
    unfold saveFileMetadata at htl
    by_cases h1 : env.fileOnDisk f = false
    · rw [if_pos h1] at htl
      simp at htl
    · rw [if_neg h1] at htl
      by_cases h2 : env.fileSaveFails f = true
      · rw [if_pos h2] at htl
        simp at htl
      · rw [if_neg h2] at htl
        simpa using htl
  · simp [saveRunToLedger, h]

/-- Witness for the amended C4 at the concrete two-file world. -/
theorem ledger_writes_per_record_transactions_w :
    (saveRunToLedger c4Env c4Rec).1.head? = some [LedgerWrite.exec c4Rec] ∧
    (saveRunToLedger c4Env c4Rec).2 = some 7 := by
  have hmain := ledger_writes_per_record_transactions c4Env c4Rec rfl
  exact ⟨hmain.1, hmain.2.2⟩

end LangChainMC
